import Mathlib

/-!
Verification of the cluster-lifecycle orchestrator in
`hops/tensorflowonspark/TFCluster.py` (hops-util-py).

The module-level mutable globals (`tf_status`, `elastic_id`, `experiment_json`,
`running`, `run_id`) are embedded as an explicit `GlobalState` record threaded
through the operations.  External engine observations (active job counts,
per-stage active task counts) are passed in as explicit poll-sample sequences,
and external effects (job cancellation, control-channel traffic) are recorded
in an action trace.  Python `while` loops that poll the engine are embedded as
structural recursion over the finite sequence of observed samples; exhausting
the sequence without the loop exit condition models non-termination and is
returned as `none`.
-/

set_option autoImplicit false

/-- Enum for the input modes of data feeding (`InputMode.TENSORFLOW = 0`,
`InputMode.SPARK = 1` in the source). -/
inductive InputMode where
  | TENSORFLOW
  | SPARK
deriving DecidableEq

/-- One observation of the engine status tracker inside a poll loop:
`activeJobs` is `len(st.getActiveJobsIds())` and `stages` lists
`si.numActiveTasks` for each active stage id returned by
`st.getActiveStageIds()`. -/
structure PollSample where
  activeJobs : Nat
  stages : List Nat
deriving DecidableEq

/-- The inner `for i in stages:` loop of `TFCluster.shutdown` in TENSORFLOW
mode: each stage whose `numActiveTasks` equals the parameter-server count
increments `count` and reassigns `done = (count >= 3)`.  Returns the final
`(count, done)` pair. -/
def processStages (psCount : Nat) : Nat → Bool → List Nat → Nat × Bool
  | count, done, [] => (count, done)
  | count, done, t :: ts =>
    if t == psCount then processStages psCount (count + 1) (decide (3 ≤ count + 1)) ts
    else processStages psCount count done ts

/-- The `while not done:` status-polling loop of `TFCluster.shutdown` in
TENSORFLOW mode, driven by the finite sequence of observed poll samples.
Returns `some (k, zeroJobsExit)` when the loop declares completion after
consuming `k` samples; `zeroJobsExit` is `true` exactly when the exit was
taken through the `len(jobs) == 0` branch (which also clears the global
`running` flag).  Returns `none` when the samples are exhausted with the
loop still running. -/
def tfWaitLoop (psCount : Nat) : Nat → List PollSample → Option (Nat × Bool)
  | _, [] => none
  | count, s :: rest =>
    if 0 < s.activeJobs then
      match processStages psCount count false s.stages with
      | (_, true) => some (1, false)
      | (c, false) => (tfWaitLoop psCount c rest).map (fun p => (p.1 + 1, p.2))
    else some (1, true)

/-- Number of active stages in one poll sample whose active-task count equals
the parameter-server count. -/
def stageMatches (psCount : Nat) (s : PollSample) : Nat :=
  (s.stages.filter (fun t => t == psCount)).length

/-- Total number of matching stage observations across a poll-sample
sequence; this is the quantity the source's `count` variable accumulates
(it is never reset). -/
def totalMatches (psCount : Nat) (samples : List PollSample) : Nat :=
  (samples.map (stageMatches psCount)).sum

/-- One registration record produced by a node during the reservation phase
(an element of `cluster_info`). -/
structure NodeRecord where
  host : String
  executor_id : Nat
  job_name : String
  task_index : Nat
  addr : Nat
  authkey : Nat
  tb_port : Nat
deriving DecidableEq

/-- The "primary key" of an executor TFManager used by the duplicate sanity
check in `run`: the pair `(node['host'], node['executor_id'])`. -/
def nodeId (n : NodeRecord) : String × Nat :=
  (n.host, n.executor_id)

/-- The audit document `experiment_json`, reduced to the fields the
orchestrator itself manipulates: the `status` string and whether a
`finished` timestamp has been set. -/
structure ExperimentRecord where
  status : String
  finished : Bool
deriving DecidableEq

/-- The record rewrite performed by `exception_handler`: status `FAILED`
plus a `finished` timestamp. -/
def failRec (r : ExperimentRecord) : ExperimentRecord :=
  { r with status := "FAILED", finished := true }

/-- The record rewrite performed by `exit_handler`: status `KILLED`
plus a `finished` timestamp. -/
def killRec (r : ExperimentRecord) : ExperimentRecord :=
  { r with status := "KILLED", finished := true }

/-- Modelled from the spec: `util.finalize_experiment` is not under `src/`;
per the spec it finalizes the experiment record as FINISHED if not already
FAILED, setting the finish timestamp. -/
def finalize_experiment (e : Option ExperimentRecord) : Option ExperimentRecord :=
  e.map (fun r => if r.status = "FAILED" then r else { r with status := "FINISHED", finished := true })

/-- The process-wide mutable globals of the module, threaded explicitly:
`tf_error` is `tf_status['error']`, `auditLog` is the sequence of documents
written to the audit sink by `util.put_elastic` (each call appends the
current `experiment_json`, possibly absent). -/
structure GlobalState where
  tf_error : Option String
  elastic_id : Nat
  experiment_json : Option ExperimentRecord
  running : Bool
  run_id : Nat
  auditLog : List (Option ExperimentRecord)
deriving DecidableEq

/-- Modelled from the spec: `util.put_elastic` is not under `src/`; per the
spec the audit sink overwrites/creates the document for the run.  We record
each write in order. -/
def put_elastic (e : Option ExperimentRecord) (g : GlobalState) : GlobalState :=
  { g with auditLog := g.auditLog ++ [e] }

/-- The module-level `exception_handler`: only if the `running` flag is set
and an experiment record exists, rewrite it as FAILED and write it to the
audit sink; otherwise do nothing. -/
def exception_handler (g : GlobalState) : GlobalState :=
  match g.running, g.experiment_json with
  | true, some r => put_elastic (some (failRec r)) { g with experiment_json := some (failRec r) }
  | _, _ => g

/-- The module-level `exit_handler` registered with `atexit`: only if the
`running` flag is set and an experiment record exists, rewrite it as KILLED
and write it to the audit sink; otherwise do nothing. -/
def exit_handler (g : GlobalState) : GlobalState :=
  match g.running, g.experiment_json with
  | true, some r => put_elastic (some (killRec r)) { g with experiment_json := some (killRec r) }
  | _, _ => g

/-- External side effects of `TFCluster.shutdown`, in program order. -/
inductive EngineAction where
  | workerShutdownJob (numWorkers : Nat)
  | callExceptionHandler
  | cancelAllJobs
  | stopSparkContext
  | stopStreamingContext
  | connectPS (addr : Nat)
  | putControlNone (addr : Nat)
  | joinControl (addr : Nat)
deriving DecidableEq

/-- Inputs to one `TFCluster.shutdown` call: the registry held by the
handle, the handle's input mode, whether a StreamingContext was passed
(`ssc is not None`), the observations driving each poll loop, and the
`server.done` flag read by the streaming loop. -/
structure ShutdownInput where
  cluster_info : List NodeRecord
  input_mode : InputMode
  streaming : Bool
  sscPolls : List Bool
  serverDone : Bool
  tfPolls : List PollSample
  finalPolls : List Nat
deriving DecidableEq

/-- The streaming branch of `shutdown`: poll
`ssc.awaitTerminationOrTimeout(1)`; when it is false but `server.done`
holds, stop the StreamingContext gracefully and exit; exit as well when the
poll itself reports termination.  `none` models the loop never exiting. -/
def streamingWait (serverDone : Bool) : List Bool → Option (List EngineAction)
  | [] => none
  | b :: rest =>
    if b then some []
    else if serverDone then some [EngineAction.stopStreamingContext]
    else streamingWait serverDone rest

/-- The final `while not done:` loop of `shutdown` that waits until the
status tracker reports zero active jobs; each element is one observed
`len(jobs)`.  Returns whether the loop exits. -/
def finalWaitLoop : List Nat → Bool
  | [] => false
  | j :: rest => if j = 0 then true else finalWaitLoop rest

/-- The driver-side stop sequence for the parameter-server nodes: for each
ps node connect to its manager, put the `None` stop sentinel on the
`control` queue, and block on the queue join. -/
def psControlActions (ps_list : List NodeRecord) : List EngineAction :=
  ps_list.flatMap (fun n => [EngineAction.connectPS n.addr, EngineAction.putControlNone n.addr, EngineAction.joinControl n.addr])

/-- `TFCluster.shutdown`.  Splits the registry into ps/worker lists; runs
the mode-specific wait (streaming poll loop, TENSORFLOW status-polling
loop, or the immediate worker-shutdown job submission in SPARK mode; the
TENSORFLOW zero-active-jobs exit clears the global `running` flag); then,
if the background thread recorded an error, invokes `exception_handler`
and cancels all outstanding jobs (the `sc.stop()` call is commented out in
the source); then finalizes the experiment record and writes it to the
audit sink; then sends the stop sentinel to every ps node and joins; and
finally waits until the engine reports zero active jobs.  Returns the
updated globals and the action trace, or `none` when one of the poll loops
never exits on the given observations. -/
def shutdown (g : GlobalState) (inp : ShutdownInput) : Option (GlobalState × List EngineAction) :=
  let ps_list := inp.cluster_info.filter (fun n => n.job_name == "ps")
  let worker_list := inp.cluster_info.filter (fun n => !(n.job_name == "ps"))
  let phase1 : Option (GlobalState × List EngineAction) :=
    if inp.streaming then
      match streamingWait inp.serverDone inp.sscPolls with
      | none => none
      | some acts => some (g, acts)
    else
      let afterWait : Option GlobalState :=
        if inp.input_mode = InputMode.TENSORFLOW then
          match tfWaitLoop ps_list.length 0 inp.tfPolls with
          | none => none
          | some (_, true) => some { g with running := false }
          | some (_, false) => some g
        else some g
      match afterWait with
      | none => none
      | some g1 => some (g1, [EngineAction.workerShutdownJob worker_list.length])
  match phase1 with
  | none => none
  | some (g1, tr1) =>
    let step2 : GlobalState × List EngineAction :=
      match g1.tf_error with
      | some _ => (exception_handler g1, [EngineAction.callExceptionHandler, EngineAction.cancelAllJobs])
      | none => (g1, [])
    let g2 := step2.1
    let finalized := finalize_experiment g2.experiment_json
    let g3 := put_elastic finalized { g2 with experiment_json := finalized }
    let tr3 := psControlActions ps_list
    if finalWaitLoop inp.finalPolls then some (g3, tr1 ++ step2.2 ++ tr3) else none

/-- Python `range(a, b)`: the interval of integers `[a, b)`. -/
def pyRange (a b : Nat) : List Nat :=
  List.range' a (b - a)

/-- Python dict assignment `d[k] = v` on an ordered association list:
overwrite the value at `k` if present, otherwise append the pair. -/
def dictInsert (k : String) (v : List Nat) : List (String × List Nat) → List (String × List Nat)
  | [] => [(k, v)]
  | (k2, v2) :: rest => if k2 = k then (k, v) :: rest else (k2, v2) :: dictInsert k v rest

/-- The `cluster_template` construction in `run`: `ps` gets
`range(num_ps)`; without a master node, `worker` gets
`range(num_ps, num_executors)`; with a master node `m`, the key `m` gets
`range(num_ps, num_ps + 1)` and, when `num_executors > num_ps + 1`,
`worker` gets `range(num_ps + 1, num_executors)`. -/
def buildClusterTemplate (num_ps num_executors : Nat) (master_node : Option String) :
    List (String × List Nat) :=
  let t := dictInsert "ps" (pyRange 0 num_ps) []
  match master_node with
  | none => dictInsert "worker" (pyRange num_ps num_executors) t
  | some m =>
    let t2 := dictInsert m (pyRange num_ps (num_ps + 1)) t
    if num_ps + 1 < num_executors then dictInsert "worker" (pyRange (num_ps + 1) num_executors) t2
    else t2

/-- The message of the duplicate-node exception raised in `run`, formatted
with the offending host and executor id. -/
def dupMessage (host : String) (eid : Nat) : String :=
  "Duplicate cluster node id detected (host=" ++ (host ++ (", executor_id=" ++ (Nat.repr eid ++
    (")" ++ ("Please ensure that:\n" ++ ("1. Number of executors >= number of TensorFlow nodes\n" ++
    ("2. Number of tasks per executors is 1\n" ++
     "3, TFCluster.shutdown() is successfully invoked when done.")))))))

/-- The duplicate sanity-check loop in `run`: walk `cluster_info`, keeping
the set of `(host, executor_id)` pairs seen so far; raise on the first pair
already seen, otherwise add it and continue. -/
def checkDuplicates : List NodeRecord → List (String × Nat) → Except (String × Nat) Unit
  | [], _ => Except.ok ()
  | n :: rest, seen =>
    if nodeId n ∈ seen then Except.error (nodeId n)
    else checkDuplicates rest (nodeId n :: seen)

/-- The fatal errors `run` can raise. -/
inductive RunError where
  | assertionError
  | driverPsUnsupported
  | logDirUnsupported
  | reservationTimeout
  | duplicateNode (host : String) (eid : Nat) (msg : String)
deriving DecidableEq

/-- The `TFCluster` object returned by `run`. -/
structure TFClusterHandle where
  cluster_info : List NodeRecord
  cluster_template : List (String × List Nat)
  input_mode : InputMode
  queues : List String
deriving DecidableEq

/-- The driver-side `run` function.  In source order: increment the
process-wide `elastic_id` and `run_id` counters and set `running = True`;
assert `num_ps < num_executors`; reject `driver_ps_nodes` and `log_dir`;
build the cluster template; create the experiment record and write it to
the audit sink (`util.populate_experiment` is not under `src/` and is
modelled from the spec as producing a RUNNING record); start the
background launch thread and wait for reservations
(`reservation.Server.await_reservations` is not under `src/` and is
modelled from the spec as yielding the full registry or timing out, the
outcome being passed in as `reservations`); run the duplicate sanity check;
and finally build the `TFCluster` handle. -/
def run (g : GlobalState) (num_executors num_ps : Nat) (input_mode : InputMode)
    (driver_ps_nodes : Bool) (log_dir : Option String) (master_node : Option String)
    (reservations : Except Unit (List NodeRecord)) (queues : List String) :
    GlobalState × Except RunError TFClusterHandle :=
  let g1 := { g with elastic_id := g.elastic_id + 1, run_id := g.run_id + 1, running := true }
  if num_executors ≤ num_ps then (g1, Except.error RunError.assertionError)
  else if driver_ps_nodes then (g1, Except.error RunError.driverPsUnsupported)
  else if log_dir.isSome then (g1, Except.error RunError.logDirUnsupported)
  else
    let template := buildClusterTemplate num_ps num_executors master_node
    let rec0 : ExperimentRecord := { status := "RUNNING", finished := false }
    let g2 := put_elastic (some rec0) { g1 with experiment_json := some rec0 }
    match reservations with
    | Except.error _ => (g2, Except.error RunError.reservationTimeout)
    | Except.ok cluster_info =>
      match checkDuplicates cluster_info [] with
      | Except.error p =>
        (g2, Except.error (RunError.duplicateNode p.1 p.2 (dupMessage p.1 p.2)))
      | Except.ok _ =>
        (g2, Except.ok { cluster_info := cluster_info, cluster_template := template,
                         input_mode := input_mode, queues := queues })

/-- Input to `TFCluster.train`: either a bounded RDD or a streaming DStream
presented as its finite sequence of arriving micro-batches. -/
inductive DataInput (α : Type) where
  | rdd (data : List α)
  | dstream (batches : List (List α))

/-- The assertion failures `TFCluster.train` can raise. -/
inductive TrainError where
  | wrongInputMode
  | unknownQueue
  | negativeEpochs
deriving DecidableEq

/-- `TFCluster.train`.  Asserts the SPARK input mode, a known queue name
and `num_epochs >= 0`, in source order.  For a DStream, each arriving
micro-batch is dispatched once via `foreachRDD`; for a bounded RDD,
`num_epochs == 0` is replaced by the default `10` and the union of
`num_epochs` copies of the data is dispatched as a single sequence.
Returns the list of dispatched sequences, one per engine dispatch. -/
def train {α : Type} (input_mode : InputMode) (queues : List String)
    (input : DataInput α) (num_epochs : Int) (qname : String) :
    Except TrainError (List (List α)) :=
  if input_mode ≠ InputMode.SPARK then Except.error TrainError.wrongInputMode
  else if qname ∉ queues then Except.error TrainError.unknownQueue
  else if num_epochs < 0 then Except.error TrainError.negativeEpochs
  else
    match input with
    | DataInput.dstream batches => Except.ok batches
    | DataInput.rdd data =>
      let ne := if num_epochs = 0 then (10 : Int) else num_epochs
      Except.ok [(List.replicate ne.toNat data).flatten]

/-- The `_start` closure run on the background launch thread: dispatch the
per-node bootstrap across all executors; any exception is caught inside
the thread (the embedding is a total function, so nothing propagates), its
message is stored into `tf_status['error']`, and `exception_handler` is
invoked — all before the thread finishes. -/
def start_thread (dispatch : Except String Unit) (g : GlobalState) : GlobalState :=
  match dispatch with
  | Except.ok _ => g
  | Except.error e => exception_handler { g with tf_error := some e }

/-- Closed form of the inner stage loop: the count grows by the number of
matching stages, and the `done` flag ends up true exactly when some stage
matched and the grown count has reached 3. -/
theorem processStages_eq (psCount : Nat) : ∀ (ts : List Nat) (count : Nat) (done : Bool),
    processStages psCount count done ts =
      (count + (ts.filter (fun t => t == psCount)).length,
       if (ts.filter (fun t => t == psCount)).length = 0 then done
       else decide (3 ≤ count + (ts.filter (fun t => t == psCount)).length)) := by
  intro ts
  induction ts with
  | nil => intro count done; simp [processStages]
  | cons t ts ih =>
    intro count done
    by_cases h : (t == psCount) = true
    · rw [processStages, if_pos h, ih]
      have harith : count + 1 + (ts.filter (fun t => t == psCount)).length =
          count + ((ts.filter (fun t => t == psCount)).length + 1) := by omega
      by_cases hl : (ts.filter (fun t => t == psCount)).length = 0
      · simp [List.filter_cons, h, hl]
      · simp [List.filter_cons, h, hl, harith]
    · rw [processStages, if_neg h, ih]
      simp [List.filter_cons, h]

/-- Completion criterion of the TENSORFLOW status-polling loop when jobs
remain active throughout the observed samples: starting from a count below
the threshold, the loop declares completion within the samples exactly
when the cumulative number of matching stage observations brings the count
to 3. -/
theorem tfWaitLoop_isSome_iff (psCount : Nat) (samples : List PollSample) :
    ∀ count : Nat, count ≤ 2 → (∀ s ∈ samples, 0 < s.activeJobs) →
    ((tfWaitLoop psCount count samples).isSome ↔
      3 ≤ count + totalMatches psCount samples) := by
  induction samples with
  | nil =>
    intro count hc _
    simp [tfWaitLoop, totalMatches]
    omega
  | cons s rest ih =>
    intro count hc hact
    have hs : 0 < s.activeJobs := hact s (by simp)
    have hrest : ∀ x ∈ rest, 0 < x.activeJobs := fun x hx => hact x (by simp [hx])
    have htot : totalMatches psCount (s :: rest) =
        stageMatches psCount s + totalMatches psCount rest := by
      simp [totalMatches]
    rw [htot]
    simp only [tfWaitLoop, if_pos hs, processStages_eq]
    by_cases hk0 : (s.stages.filter (fun t => t == psCount)).length = 0
    · have hsm : stageMatches psCount s = 0 := hk0
      simp only [hk0, if_pos, hsm, Nat.zero_add]
      have := ih count hc hrest
      simpa using this
    · by_cases h3 : 3 ≤ count + (s.stages.filter (fun t => t == psCount)).length
      · have hd : (if (s.stages.filter (fun t => t == psCount)).length = 0 then false
            else decide (3 ≤ count + (s.stages.filter (fun t => t == psCount)).length)) = true := by
          simp [hk0, h3]
        rw [hd]
        simp only [Option.isSome_some, true_iff]
        have hsm : stageMatches psCount s = (s.stages.filter (fun t => t == psCount)).length := rfl
        omega
      · have hd : (if (s.stages.filter (fun t => t == psCount)).length = 0 then false
            else decide (3 ≤ count + (s.stages.filter (fun t => t == psCount)).length)) = false := by
          simp [hk0, h3]
        rw [hd]
        have hc2 : count + (s.stages.filter (fun t => t == psCount)).length ≤ 2 := by omega
        have := ih (count + (s.stages.filter (fun t => t == psCount)).length) hc2 hrest
        have hmap : ∀ o : Option (Nat × Bool),
            (o.map (fun p => (p.1 + 1, p.2))).isSome = o.isSome := by
          intro o; cases o <;> rfl
        rw [hmap]
        rw [this]
        have hsm : stageMatches psCount s = (s.stages.filter (fun t => t == psCount)).length := rfl
        omega

/-- C1 (corrected): in the TENSORFLOW-mode shutdown poll loop, while jobs
remain active completion is declared exactly when the cumulative number of
matching stage observations (the condition "active task count of a stage
equals the parameter-server count", counted once per matching stage per
sample and never reset) reaches 3 — not after 3 consecutive matching poll
samples; and whenever the engine reports zero active jobs, completion is
declared immediately at that sample. -/
theorem c1_shutdown_debounce_amended (psCount : Nat) (samples : List PollSample)
    (s0 : PollSample) (rest : List PollSample)
    (hactive : ∀ s ∈ samples, 0 < s.activeJobs) (hzero : s0.activeJobs = 0) :
    ((tfWaitLoop psCount 0 samples).isSome ↔ 3 ≤ totalMatches psCount samples)
    ∧ tfWaitLoop psCount 0 (s0 :: rest) = some (1, true) := by
  constructor
  · have := tfWaitLoop_isSome_iff psCount samples 0 (by omega) hactive
    simpa using this
  · simp [tfWaitLoop, hzero]

/-- Witness for C1: two samples with one matching stage each do not reach
completion (cumulative count 2 < 3), and a zero-active-jobs sample
completes immediately. -/
theorem c1_shutdown_debounce_amended_witness :
    ((tfWaitLoop 1 0 [⟨1, [1]⟩, ⟨1, [1]⟩]).isSome ↔ 3 ≤ totalMatches 1 [⟨1, [1]⟩, ⟨1, [1]⟩])
    ∧ tfWaitLoop 1 0 (⟨0, []⟩ :: []) = some (1, true) :=
  c1_shutdown_debounce_amended 1 [⟨1, [1]⟩, ⟨1, [1]⟩] ⟨0, []⟩ [] (by decide) rfl

/-- C1 counterexample: the claim "completion is declared only after the
condition has held for 3 consecutive poll samples" is false.  A single
poll sample whose three active stages all match declares completion after
1 sample; a sequence whose matching samples are not consecutive (samples
1, 3, 4) declares completion; and two samples with two matching stages
each declare completion after 2 samples while jobs remain active. -/
theorem c1_counterexample :
    tfWaitLoop 1 0 [⟨1, [1, 1, 1]⟩] = some (1, false)
    ∧ tfWaitLoop 1 0 [⟨1, [1]⟩, ⟨1, [2]⟩, ⟨1, [1]⟩, ⟨1, [1]⟩] = some (4, false)
    ∧ tfWaitLoop 1 0 [⟨1, [1, 1]⟩, ⟨1, [1, 1]⟩] = some (2, false) := by
  decide

/-- Length of the concatenation of `n` copies of a list. -/
theorem length_flatten_replicate {α : Type} (n : Nat) (l : List α) :
    ((List.replicate n l).flatten).length = n * l.length := by
  induction n with
  | zero => simp
  | succ k ih => simp [List.replicate_succ, ih, Nat.succ_mul, Nat.add_comm]

/-- C5 (confirmed): for a bounded input and `num_epochs >= 1`, `train`
dispatches the logical concatenation of `num_epochs` copies of the input
(a 3-item input with 2 epochs yields 6 items in two concatenated passes);
`num_epochs == 0` behaves identically to the default repeat count 10; and
a negative `num_epochs` fails the precondition assertion. -/
theorem c5_train_epoch_replication {α : Type} (queues : List String) (data : List α)
    (qname : String) (n m : Int) (hq : qname ∈ queues) (hn : 1 ≤ n) (hm : m < 0) :
    train InputMode.SPARK queues (DataInput.rdd data) n qname =
      Except.ok [(List.replicate n.toNat data).flatten]
    ∧ ((List.replicate n.toNat data).flatten).length = n.toNat * data.length
    ∧ (List.replicate 2 data).flatten = data ++ data
    ∧ train InputMode.SPARK queues (DataInput.rdd data) 0 qname =
        train InputMode.SPARK queues (DataInput.rdd data) 10 qname
    ∧ train InputMode.SPARK queues (DataInput.rdd data) m qname =
        Except.error TrainError.negativeEpochs := by
  have hn0 : ¬ n < 0 := by omega
  have hne : ¬ n = 0 := by omega
  refine ⟨?_, ?_, ?_, ?_, ?_⟩
  · simp [train, hq, hn0, hne]
  · exact length_flatten_replicate n.toNat data
  · simp [List.replicate_succ]
  · simp [train, hq]
  · simp [train, hq, hm]

/-- Witness for C5: a 3-item input with 2 epochs yields exactly the 6-item
two-pass concatenation, 0 epochs equals 10 epochs, and -1 epochs raises. -/
theorem c5_train_epoch_replication_witness :
    train InputMode.SPARK ["input"] (DataInput.rdd [10, 20, 30]) 2 "input" =
      Except.ok [(List.replicate (2 : Int).toNat [10, 20, 30]).flatten]
    ∧ ((List.replicate (2 : Int).toNat [10, 20, 30]).flatten).length = (2 : Int).toNat * [10, 20, 30].length
    ∧ (List.replicate 2 [10, 20, 30]).flatten = [10, 20, 30] ++ [10, 20, 30]
    ∧ train InputMode.SPARK ["input"] (DataInput.rdd [10, 20, 30]) 0 "input" =
        train InputMode.SPARK ["input"] (DataInput.rdd [10, 20, 30]) 10 "input"
    ∧ train InputMode.SPARK ["input"] (DataInput.rdd [10, 20, 30]) (-1) "input" =
        Except.error TrainError.negativeEpochs :=
  c5_train_epoch_replication ["input"] [10, 20, 30] "input" 2 (-1)
    (by decide) (by decide) (by decide)

/-- C10 (confirmed): for a streaming (DStream) input, `train` dispatches
each arriving micro-batch exactly once per arrival, and `num_epochs` has
no effect on the dispatch: no epoch replication is performed and the
`num_epochs == 0` default substitution is not applied in the streaming
branch. -/
theorem c10_train_streaming_no_epochs {α : Type} (queues : List String)
    (batches : List (List α)) (qname : String) (n m : Int)
    (hq : qname ∈ queues) (hn : 0 ≤ n) (hm : 0 ≤ m) :
    train InputMode.SPARK queues (DataInput.dstream batches) n qname = Except.ok batches
    ∧ train InputMode.SPARK queues (DataInput.dstream batches) n qname =
        train InputMode.SPARK queues (DataInput.dstream batches) m qname := by
  have hn0 : ¬ n < 0 := by omega
  have hm0 : ¬ m < 0 := by omega
  constructor
  · simp [train, hq, hn0]
  · simp [train, hq, hn0, hm0]

/-- Witness for C10: with 2 micro-batches, dispatch is the batches
themselves once each, identically for 0 and 5 epochs. -/
theorem c10_train_streaming_no_epochs_witness :
    train InputMode.SPARK ["input"] (DataInput.dstream [[1, 2], [3]]) 0 "input" =
      Except.ok [[1, 2], [3]]
    ∧ train InputMode.SPARK ["input"] (DataInput.dstream [[1, 2], [3]]) 0 "input" =
        train InputMode.SPARK ["input"] (DataInput.dstream [[1, 2], [3]]) 5 "input" :=
  c10_train_streaming_no_epochs ["input"] [[1, 2], [3]] "input" 0 5
    (by decide) (by decide) (by decide)

/-- C7 (confirmed): every exception raised by the per-node bootstrap
dispatch in the background launch thread is caught inside the thread (the
embedding of the thread body is a total function, so nothing propagates to
the driver), its message is recorded into `tf_status['error']`, and
`exception_handler` is invoked on the state that already carries the
recorded error — so when the run is flagged running with a live experiment
record, a FAILED record is written — all before the thread finishes, and
the recorded error survives for the driver's later polling. -/
theorem c7_background_error_capture (e : String) (g : GlobalState) (r : ExperimentRecord)
    (hrun : g.running = true) (hjson : g.experiment_json = some r) :
    (start_thread (Except.error e) g).tf_error = some e
    ∧ start_thread (Except.error e) g = exception_handler { g with tf_error := some e }
    ∧ (start_thread (Except.error e) g).experiment_json = some (failRec r)
    ∧ (start_thread (Except.error e) g).auditLog = g.auditLog ++ [some (failRec r)]
    ∧ start_thread (Except.ok ()) g = g := by
  refine ⟨?_, rfl, ?_, ?_, rfl⟩
  · simp [start_thread, exception_handler, hrun, hjson, put_elastic]
  · simp [start_thread, exception_handler, hrun, hjson, put_elastic]
  · simp [start_thread, exception_handler, hrun, hjson, put_elastic]

/-- A concrete running global state with a live RUNNING experiment record
and no recorded error. -/
def G7 : GlobalState :=
  { tf_error := none, elastic_id := 1, experiment_json := some ⟨"RUNNING", false⟩,
    running := true, run_id := 1, auditLog := [some ⟨"RUNNING", false⟩] }

/-- Witness for C7: a concrete error on a running state with a RUNNING
record is recorded and converted into a FAILED audit write. -/
theorem c7_background_error_capture_witness :
    (start_thread (Except.error "boom") G7).tf_error = some "boom"
    ∧ start_thread (Except.error "boom") G7 = exception_handler { G7 with tf_error := some "boom" }
    ∧ (start_thread (Except.error "boom") G7).experiment_json = some (failRec ⟨"RUNNING", false⟩)
    ∧ (start_thread (Except.error "boom") G7).auditLog = G7.auditLog ++ [some (failRec ⟨"RUNNING", false⟩)]
    ∧ start_thread (Except.ok ()) G7 = G7 :=
  c7_background_error_capture "boom" G7 ⟨"RUNNING", false⟩ rfl rfl

/-- Concatenating two adjacent python ranges. -/
theorem pyRange_append (a b c : Nat) (hab : a ≤ b) (hbc : b ≤ c) :
    pyRange a b ++ pyRange b c = pyRange a c := by
  have h := List.range'_append a (b - a) (c - b) 1
  have h1 : a + 1 * (b - a) = b := by omega
  have h2 : c - b + (b - a) = c - a := by omega
  rw [h1, h2] at h
  simpa [pyRange] using h

/-- `range(0, n)` is `List.range n`. -/
theorem pyRange_zero (n : Nat) : pyRange 0 n = List.range n := by
  simp [pyRange, List.range_eq_range']

/-- `range(a, a + 1)` is the singleton `[a]`. -/
theorem pyRange_single (a : Nat) : pyRange a (a + 1) = [a] := by
  simp [pyRange]

/-- Shape of the cluster template without a master node. -/
theorem buildClusterTemplate_none (np ne : Nat) :
    buildClusterTemplate np ne none = [("ps", pyRange 0 np), ("worker", pyRange np ne)] := by
  simp [buildClusterTemplate, dictInsert]

/-- Shape of the cluster template with a master node whose name collides
with neither built-in role name. -/
theorem buildClusterTemplate_some (np ne : Nat) (m : String) (hp : m ≠ "ps") (hw : m ≠ "worker") :
    buildClusterTemplate np ne (some m) =
      (if np + 1 < ne then
        [("ps", pyRange 0 np), (m, [np]), ("worker", pyRange (np + 1) ne)]
       else [("ps", pyRange 0 np), (m, [np])]) := by
  have h1 : ¬ ("ps" = m) := fun h => hp h.symm
  by_cases h2 : np + 1 < ne
  · simp [buildClusterTemplate, dictInsert, h1, hw, h2, pyRange_single]
  · simp [buildClusterTemplate, dictInsert, h1, h2, pyRange_single]

/-- The duplicate scan succeeds exactly when the node ids are pairwise
distinct and none of them was already seen. -/
theorem checkDuplicates_ok_iff : ∀ (l : List NodeRecord) (seen : List (String × Nat)),
    checkDuplicates l seen = Except.ok () ↔
      (l.map nodeId).Nodup ∧ ∀ p ∈ l.map nodeId, p ∉ seen := by
  intro l
  induction l with
  | nil => intro seen; simp [checkDuplicates]
  | cons n rest ih =>
    intro seen
    by_cases h : nodeId n ∈ seen
    · simp only [checkDuplicates, if_pos h]
      constructor
      · intro hco; cases hco
      · rintro ⟨_, hall⟩
        exact absurd (hall (nodeId n) (by simp)) (fun hn => hn h)
    · simp only [checkDuplicates, if_neg h]
      rw [ih]
      simp only [List.map_cons, List.nodup_cons, List.mem_cons]
      constructor
      · rintro ⟨hnd, hall⟩
        refine ⟨⟨fun hmem => (hall _ hmem) (Or.inl rfl), hnd⟩, ?_⟩
        rintro p (rfl | hp)
        · exact h
        · intro hps
          exact (hall p hp) (Or.inr hps)
      · rintro ⟨⟨hnm, hnd⟩, hall⟩
        refine ⟨hnd, ?_⟩
        intro p hp hpc
        rcases hpc with rfl | hps
        · exact hnm hp
        · exact (hall p (Or.inr hp)) hps

/-- When the duplicate scan reports a pair, that pair either was already
in the seen set or occurs at least twice among the scanned node ids. -/
theorem checkDuplicates_error : ∀ (l : List NodeRecord) (seen : List (String × Nat))
    (p : String × Nat), checkDuplicates l seen = Except.error p →
    p ∈ l.map nodeId ∧ (p ∈ seen ∨ 2 ≤ (l.map nodeId).count p) := by
  intro l
  induction l with
  | nil => intro seen p h; simp [checkDuplicates] at h
  | cons n rest ih =>
    intro seen p h
    by_cases hm : nodeId n ∈ seen
    · simp only [checkDuplicates, if_pos hm] at h
      cases h
      exact ⟨by simp, Or.inl hm⟩
    · simp only [checkDuplicates, if_neg hm] at h
      obtain ⟨hpm, hrest⟩ := ih (nodeId n :: seen) p h
      refine ⟨by simp [hpm], ?_⟩
      rcases hrest with hseen | hcount
      · rcases List.mem_cons.mp hseen with rfl | hseen2
        · right
          have h1 : 1 ≤ (rest.map nodeId).count (nodeId n) := List.count_pos_iff.mpr hpm
          simp only [List.map_cons, List.count_cons_self]
          omega
        · exact Or.inl hseen2
      · right
        simp only [List.map_cons, List.count_cons]
        omega

/-- C3 (confirmed): after the registry is complete, `run` performs the
duplicate check on the `(host, executor_id)` pairs before returning a
handle: the scan succeeds exactly when the pairs are pairwise distinct, in
which case `run` returns the cluster handle; on a duplicated pair `run`
returns the fatal duplicate-node error — its message embedding the
offending host and executor id between the fixed text fragments — and no
handle is produced; the reported pair genuinely occurs at least twice in
the registry. -/
theorem c3_duplicate_id_check (g : GlobalState) (ne np : Nat) (im : InputMode)
    (mn : Option String) (qs : List String) (info : List NodeRecord)
    (host : String) (eid : Nat) (h1 : np < ne) :
    (checkDuplicates info [] = Except.ok () ↔ (info.map nodeId).Nodup)
    ∧ (checkDuplicates info [] = Except.ok () →
        (run g ne np im false none mn (Except.ok info) qs).2 =
          Except.ok { cluster_info := info, cluster_template := buildClusterTemplate np ne mn,
                      input_mode := im, queues := qs })
    ∧ (checkDuplicates info [] = Except.error (host, eid) →
        (run g ne np im false none mn (Except.ok info) qs).2 =
          Except.error (RunError.duplicateNode host eid (dupMessage host eid))
        ∧ 2 ≤ (info.map nodeId).count (host, eid)
        ∧ dupMessage host eid =
            "Duplicate cluster node id detected (host=" ++ (host ++ (", executor_id=" ++
              (Nat.repr eid ++ (")" ++ ("Please ensure that:\n" ++
              ("1. Number of executors >= number of TensorFlow nodes\n" ++
              ("2. Number of tasks per executors is 1\n" ++
               "3, TFCluster.shutdown() is successfully invoked when done.")))))))) := by
  have hlt : ¬ ne ≤ np := by omega
  refine ⟨?_, ?_, ?_⟩
  · rw [checkDuplicates_ok_iff]
    simp
  · intro hok
    simp [run, hlt, hok]
  · intro herr
    obtain ⟨_, hdup⟩ := checkDuplicates_error info [] (host, eid) herr
    refine ⟨by simp [run, hlt, herr], ?_, rfl⟩
    rcases hdup with hseen | hcount
    · cases hseen
    · exact hcount

/-- Two registrations from the same host and executor slot, plus one
distinct one. -/
def dupN1 : NodeRecord := ⟨"h1", 0, "ps", 0, 40, 7, 0⟩

/-- Second registration carrying the same `(host, executor_id)` pair as
`dupN1` under a different role. -/
def dupN2 : NodeRecord := ⟨"h1", 0, "worker", 0, 41, 8, 0⟩

/-- Witness for C3: a registry with `(h1, 0)` occurring twice makes `run`
return the duplicate-node error naming that pair, while the check equates
success with distinctness. -/
theorem c3_duplicate_id_check_witness :
    (checkDuplicates [dupN1, dupN2] [] = Except.ok () ↔ ([dupN1, dupN2].map nodeId).Nodup)
    ∧ (checkDuplicates [dupN1, dupN2] [] = Except.ok () →
        (run G7 2 1 InputMode.TENSORFLOW false none none (Except.ok [dupN1, dupN2]) []).2 =
          Except.ok { cluster_info := [dupN1, dupN2],
                      cluster_template := buildClusterTemplate 1 2 none,
                      input_mode := InputMode.TENSORFLOW, queues := [] })
    ∧ (checkDuplicates [dupN1, dupN2] [] = Except.error ("h1", 0) →
        (run G7 2 1 InputMode.TENSORFLOW false none none (Except.ok [dupN1, dupN2]) []).2 =
          Except.error (RunError.duplicateNode "h1" 0 (dupMessage "h1" 0))
        ∧ 2 ≤ ([dupN1, dupN2].map nodeId).count ("h1", 0)
        ∧ dupMessage "h1" 0 =
            "Duplicate cluster node id detected (host=" ++ ("h1" ++ (", executor_id=" ++
              (Nat.repr 0 ++ (")" ++ ("Please ensure that:\n" ++
              ("1. Number of executors >= number of TensorFlow nodes\n" ++
              ("2. Number of tasks per executors is 1\n" ++
               "3, TFCluster.shutdown() is successfully invoked when done.")))))))) :=
  c3_duplicate_id_check G7 2 1 InputMode.TENSORFLOW none [] [dupN1, dupN2] "h1" 0 (by decide)

/-- C4 (corrected): provided the supplied master name is distinct from the
built-in role names `ps` and `worker`, the role table partitions
`[0, totalNodes)` exactly — the concatenation of all role ranges is
`List.range totalNodes`, which has no duplicates — the master role maps to
exactly the single index `reservedCount`, indices below it form the `ps`
range, and the `worker` range holds the remaining indices and is absent
when none remain; the same partition holds with no master name. -/
theorem c4_role_partition_amended (np ne : Nat) (m : String)
    (h : np < ne) (hp : m ≠ "ps") (hw : m ≠ "worker") :
    ((buildClusterTemplate np ne none).map Prod.snd).flatten = List.range ne
    ∧ ((buildClusterTemplate np ne (some m)).map Prod.snd).flatten = List.range ne
    ∧ List.lookup m (buildClusterTemplate np ne (some m)) = some [np]
    ∧ List.lookup "ps" (buildClusterTemplate np ne (some m)) = some (List.range np)
    ∧ (np + 1 < ne →
        List.lookup "worker" (buildClusterTemplate np ne (some m)) =
          some (pyRange (np + 1) ne))
    ∧ (ne = np + 1 → List.lookup "worker" (buildClusterTemplate np ne (some m)) = none)
    ∧ (List.range ne).Nodup := by
  have hps : pyRange 0 np ++ pyRange np ne = List.range ne := by
    rw [pyRange_append 0 np ne (by omega) (by omega), pyRange_zero]
  have hps3 : pyRange 0 np ++ ([np] ++ pyRange (np + 1) ne) = List.range ne := by
    rw [← pyRange_single np, pyRange_append np (np + 1) ne (by omega) (by omega),
        pyRange_append 0 np ne (by omega) (by omega), pyRange_zero]
  have hmp : (m == "ps") = false := by
    simp [hp]
  have hmw : (m == "worker") = false := by
    simp [hw]
  have hwm : ("worker" == m) = false := by
    simp
    exact fun hh => hw hh.symm
  refine ⟨?_, ?_, ?_, ?_, ?_, ?_, List.nodup_range ne⟩
  · rw [buildClusterTemplate_none]
    simpa using hps
  · rw [buildClusterTemplate_some np ne m hp hw]
    by_cases h2 : np + 1 < ne
    · simp only [h2, if_pos]
      simpa using hps3
    · have hne : ne = np + 1 := by omega
      simp only [h2, if_neg]
      simp only [List.map_cons, List.map_nil, List.flatten]
      rw [List.append_nil, ← pyRange_single np,
          pyRange_append 0 np (np + 1) (by omega) (by omega), pyRange_zero, hne]
  · rw [buildClusterTemplate_some np ne m hp hw]
    by_cases h2 : np + 1 < ne
    · simp [h2, List.lookup, hmp]
    · simp [h2, List.lookup, hmp]
  · rw [buildClusterTemplate_some np ne m hp hw]
    by_cases h2 : np + 1 < ne
    · simp [h2, List.lookup, pyRange_zero]
    · simp [h2, List.lookup, pyRange_zero]
  · intro h2
    rw [buildClusterTemplate_some np ne m hp hw]
    simp [h2, List.lookup, hwm]
  · intro hne
    have h2 : ¬ np + 1 < ne := by omega
    rw [buildClusterTemplate_some np ne m hp hw]
    simp [h2, List.lookup, hwm]

/-- Witness for C4: with 4 nodes, 1 reserved node and master name
`master`, the table is `ps=[0]`, `master=[1]`, `worker=[2,3]`, a partition
of `[0,4)`. -/
theorem c4_role_partition_amended_witness :
    ((buildClusterTemplate 1 4 none).map Prod.snd).flatten = List.range 4
    ∧ ((buildClusterTemplate 1 4 (some "master")).map Prod.snd).flatten = List.range 4
    ∧ List.lookup "master" (buildClusterTemplate 1 4 (some "master")) = some [1]
    ∧ List.lookup "ps" (buildClusterTemplate 1 4 (some "master")) = some (List.range 1)
    ∧ (1 + 1 < 4 →
        List.lookup "worker" (buildClusterTemplate 1 4 (some "master")) = some (pyRange (1 + 1) 4))
    ∧ (4 = 1 + 1 → List.lookup "worker" (buildClusterTemplate 1 4 (some "master")) = none)
    ∧ (List.range 4).Nodup :=
  c4_role_partition_amended 1 4 "master" (by decide) (by decide) (by decide)

/-- C4 counterexample: the claim fails when the supplied master name
collides with a built-in role name.  With `master_node = "ps"`,
2 reserved nodes and 4 total nodes, the dict assignment overwrites the
`ps` range, the table degenerates to `ps=[2]`, `worker=[3]`, and indices 0
and 1 belong to no role range, so the ranges do not partition `[0, 4)`. -/
theorem c4_counterexample :
    buildClusterTemplate 2 4 (some "ps") = [("ps", [2]), ("worker", [3])]
    ∧ ((buildClusterTemplate 2 4 (some "ps")).map Prod.snd).flatten ≠ List.range 4
    ∧ (0 : Nat) ∉ ((buildClusterTemplate 2 4 (some "ps")).map Prod.snd).flatten := by
  decide

/-- C8 (corrected): when `run` is called with
`num_ps >= num_executors`, the assertion fails fatally and no background
work, reservation server, experiment record or audit write happens — but
the check does NOT precede every side effect: the process-wide counters
`elastic_id` and `run_id` have already been incremented and the `running`
flag has already been set before the assertion is evaluated. -/
theorem c8_precondition_after_counters (g : GlobalState) (ne np : Nat) (im : InputMode)
    (dpn : Bool) (ld : Option String) (mn : Option String)
    (res : Except Unit (List NodeRecord)) (qs : List String) (h : ne ≤ np) :
    run g ne np im dpn ld mn res qs =
      ({ g with elastic_id := g.elastic_id + 1, run_id := g.run_id + 1, running := true },
       Except.error RunError.assertionError)
    ∧ ({ g with elastic_id := g.elastic_id + 1, run_id := g.run_id + 1, running := true } : GlobalState).experiment_json = g.experiment_json
    ∧ ({ g with elastic_id := g.elastic_id + 1, run_id := g.run_id + 1, running := true } : GlobalState).auditLog = g.auditLog := by
  refine ⟨?_, rfl, rfl⟩
  simp [run, h]

/-- The pristine module state at import time: zero counters, no record,
not running. -/
def initialGlobalState : GlobalState :=
  { tf_error := none, elastic_id := 0, experiment_json := none,
    running := false, run_id := 0, auditLog := [] }

/-- Witness for C8: calling `run` with 2 executors and 2 ps nodes on the
pristine state returns the assertion error without touching the experiment
record or the audit log. -/
theorem c8_precondition_after_counters_witness :
    run initialGlobalState 2 2 InputMode.TENSORFLOW false none none (Except.ok []) [] =
      ({ initialGlobalState with elastic_id := initialGlobalState.elastic_id + 1, run_id := initialGlobalState.run_id + 1, running := true },
       Except.error RunError.assertionError)
    ∧ ({ initialGlobalState with elastic_id := initialGlobalState.elastic_id + 1, run_id := initialGlobalState.run_id + 1, running := true } : GlobalState).experiment_json = initialGlobalState.experiment_json
    ∧ ({ initialGlobalState with elastic_id := initialGlobalState.elastic_id + 1, run_id := initialGlobalState.run_id + 1, running := true } : GlobalState).auditLog = initialGlobalState.auditLog :=
  c8_precondition_after_counters initialGlobalState 2 2 InputMode.TENSORFLOW false none none
    (Except.ok []) [] (by decide)

/-- C8 counterexample: the claim that no process-wide state is modified
before the precondition check is false — with `num_ps = num_executors = 2`
the call fails with the assertion error, yet `run_id` and `elastic_id`
have been incremented and the `running` flag set. -/
theorem c8_counterexample :
    (run initialGlobalState 2 2 InputMode.TENSORFLOW false none none (Except.ok []) []).2 =
      Except.error RunError.assertionError
    ∧ (run initialGlobalState 2 2 InputMode.TENSORFLOW false none none (Except.ok []) []).1.run_id = 1
    ∧ initialGlobalState.run_id = 0
    ∧ (run initialGlobalState 2 2 InputMode.TENSORFLOW false none none (Except.ok []) []).1.elastic_id = 1
    ∧ initialGlobalState.elastic_id = 0
    ∧ (run initialGlobalState 2 2 InputMode.TENSORFLOW false none none (Except.ok []) []).1.running = true
    ∧ initialGlobalState.running = false :=
  ⟨rfl, rfl, rfl, rfl, rfl, rfl, rfl⟩

/-- C9 (confirmed): `run` returns a usable cluster handle only once the
registration outcome carries the full registry — the handle then holds all
`N` node records — and when fewer than `N` nodes register within the
reservation timeout the coordinator times out and `run` returns the
timeout error, producing no handle. -/
theorem c9_reservation_gate (g : GlobalState) (ne np : Nat) (im : InputMode)
    (mn : Option String) (qs : List String) (info : List NodeRecord)
    (h1 : np < ne) (hlen : info.length = ne) (hnodup : (info.map nodeId).Nodup) :
    (run g ne np im false none mn (Except.error ()) qs).2 =
      Except.error RunError.reservationTimeout
    ∧ (run g ne np im false none mn (Except.ok info) qs).2 =
        Except.ok { cluster_info := info, cluster_template := buildClusterTemplate np ne mn,
                    input_mode := im, queues := qs }
    ∧ ({ cluster_info := info, cluster_template := buildClusterTemplate np ne mn,
         input_mode := im, queues := qs } : TFClusterHandle).cluster_info.length = ne := by
  have hlt : ¬ ne ≤ np := by omega
  have hok : checkDuplicates info [] = Except.ok () := by
    rw [checkDuplicates_ok_iff]
    exact ⟨hnodup, by simp⟩
  refine ⟨?_, ?_, hlen⟩
  · simp [run, hlt]
  · simp [run, hlt, hok]

/-- Two distinct node records registering from different hosts. -/
def okN1 : NodeRecord := ⟨"h1", 0, "ps", 0, 40, 7, 0⟩

/-- Second distinct node record. -/
def okN2 : NodeRecord := ⟨"h2", 0, "worker", 0, 41, 8, 6006⟩

/-- Witness for C9: with 2 executors and a 2-record distinct registry,
timeout yields the timeout error and success yields the full handle. -/
theorem c9_reservation_gate_witness :
    (run G7 2 1 InputMode.TENSORFLOW false none none (Except.error ()) []).2 =
      Except.error RunError.reservationTimeout
    ∧ (run G7 2 1 InputMode.TENSORFLOW false none none (Except.ok [okN1, okN2]) []).2 =
        Except.ok { cluster_info := [okN1, okN2], cluster_template := buildClusterTemplate 1 2 none,
                    input_mode := InputMode.TENSORFLOW, queues := [] }
    ∧ ({ cluster_info := [okN1, okN2], cluster_template := buildClusterTemplate 1 2 none,
         input_mode := InputMode.TENSORFLOW, queues := [] } : TFClusterHandle).cluster_info.length = 2 :=
  c9_reservation_gate G7 2 1 InputMode.TENSORFLOW none [] [okN1, okN2]
    (by decide) (by decide) (by decide)

/-- The driver never emits a Spark-context stop while stopping the ps
nodes (the `sc.stop()` call is commented out in the source). -/
theorem stopSparkContext_not_in_psControlActions (l : List NodeRecord) :
    EngineAction.stopSparkContext ∉ psControlActions l := by
  induction l with
  | nil => simp [psControlActions]
  | cons n rest ih => simp [psControlActions, List.flatMap_cons]

/-- C2 (corrected): when `shutdown` runs after the background thread
recorded an error and the run is still flagged running with a live
experiment record (as in SPARK mode, streaming mode, or a TENSORFLOW wait
that exited through the debounce branch), it invokes the failure handler —
which rewrites the record as FAILED and writes it to the audit sink —
cancels all outstanding jobs without stopping the execution context, and
still connects to every parameter-server node's control channel, puts the
`None` stop sentinel on its `control` queue and blocks on the queue join
before returning.  (When the TENSORFLOW wait loop exits through the
zero-active-jobs branch, the `running` flag has been cleared first and the
failure handler writes nothing; see the counterexample.) -/
theorem c2_shutdown_error_path_amended (g : GlobalState) (info : List NodeRecord)
    (fp : List Nat) (e : String) (r : ExperimentRecord)
    (herr : g.tf_error = some e) (hrun : g.running = true)
    (hjson : g.experiment_json = some r) (hfinal : finalWaitLoop fp = true) :
    shutdown g ⟨info, InputMode.SPARK, false, [], false, [], fp⟩ =
      some ({ g with experiment_json := some (failRec r), auditLog := g.auditLog ++ [some (failRec r), some (failRec r)] },
            [EngineAction.workerShutdownJob (info.filter (fun n => !(n.job_name == "ps"))).length,
             EngineAction.callExceptionHandler, EngineAction.cancelAllJobs] ++
            psControlActions (info.filter (fun n => n.job_name == "ps")))
    ∧ (failRec r).status = "FAILED"
    ∧ ({ g with experiment_json := some (failRec r), auditLog := g.auditLog ++ [some (failRec r), some (failRec r)] } : GlobalState).running = true
    ∧ EngineAction.stopSparkContext ∉
        ([EngineAction.workerShutdownJob (info.filter (fun n => !(n.job_name == "ps"))).length,
          EngineAction.callExceptionHandler, EngineAction.cancelAllJobs] ++
         psControlActions (info.filter (fun n => n.job_name == "ps"))) := by
  refine ⟨?_, rfl, by simp [hrun], ?_⟩
  · simp [shutdown, herr, exception_handler, hrun, hjson, put_elastic, finalize_experiment,
        failRec, hfinal]
  · simp [stopSparkContext_not_in_psControlActions]

/-- A running state carrying a recorded background error and a live
RUNNING experiment record. -/
def cexG2 : GlobalState :=
  { tf_error := some "boom", elastic_id := 1, experiment_json := some ⟨"RUNNING", false⟩,
    running := true, run_id := 1, auditLog := [] }

/-- Witness for C2: on a one-ps/one-worker registry in SPARK mode with a
recorded error, shutdown writes FAILED twice (handler write plus
finalization write), cancels jobs, never stops the context, and ends with
connect/put/join on the ps node. -/
theorem c2_shutdown_error_path_amended_witness :
    shutdown cexG2 ⟨[okN1, okN2], InputMode.SPARK, false, [], false, [], [0]⟩ =
      some ({ cexG2 with experiment_json := some (failRec ⟨"RUNNING", false⟩), auditLog := cexG2.auditLog ++ [some (failRec ⟨"RUNNING", false⟩), some (failRec ⟨"RUNNING", false⟩)] },
            [EngineAction.workerShutdownJob ([okN1, okN2].filter (fun n => !(n.job_name == "ps"))).length,
             EngineAction.callExceptionHandler, EngineAction.cancelAllJobs] ++
            psControlActions ([okN1, okN2].filter (fun n => n.job_name == "ps")))
    ∧ (failRec ⟨"RUNNING", false⟩).status = "FAILED"
    ∧ ({ cexG2 with experiment_json := some (failRec ⟨"RUNNING", false⟩), auditLog := cexG2.auditLog ++ [some (failRec ⟨"RUNNING", false⟩), some (failRec ⟨"RUNNING", false⟩)] } : GlobalState).running = true
    ∧ EngineAction.stopSparkContext ∉
        ([EngineAction.workerShutdownJob ([okN1, okN2].filter (fun n => !(n.job_name == "ps"))).length,
          EngineAction.callExceptionHandler, EngineAction.cancelAllJobs] ++
         psControlActions ([okN1, okN2].filter (fun n => n.job_name == "ps"))) :=
  c2_shutdown_error_path_amended cexG2 [okN1, okN2] [0] "boom" ⟨"RUNNING", false⟩
    rfl rfl rfl rfl

/-- Shutdown observations for a TENSORFLOW-mode run whose first status
poll already reports zero active jobs. -/
def cexInp2 : ShutdownInput :=
  { cluster_info := [okN1, okN2], input_mode := InputMode.TENSORFLOW, streaming := false,
    sscPolls := [], serverDone := false, tfPolls := [⟨0, []⟩], finalPolls := [0] }

/-- C2 counterexample: the claim that every shutdown call after a recorded
error writes a FAILED audit record is false.  In TENSORFLOW mode with an
error recorded, when the status poll reports zero active jobs the loop
clears `running` before the error check, so `exception_handler` writes
nothing: shutdown completes with the audit sink receiving only a FINISHED
record (never FAILED) even though the handler was invoked and jobs were
cancelled. -/
theorem c2_counterexample :
    shutdown cexG2 cexInp2 =
      some ({ cexG2 with running := false, experiment_json := some ⟨"FINISHED", true⟩, auditLog := [some ⟨"FINISHED", true⟩] },
            [EngineAction.workerShutdownJob 1, EngineAction.callExceptionHandler,
             EngineAction.cancelAllJobs, EngineAction.connectPS 40,
             EngineAction.putControlNone 40, EngineAction.joinControl 40])
    ∧ cexG2.tf_error = some "boom"
    ∧ cexG2.running = true
    ∧ (⟨"FINISHED", true⟩ : ExperimentRecord).status ≠ "FAILED"
    ∧ [some (⟨"FINISHED", true⟩ : ExperimentRecord)].all
        (fun o => o.elim true (fun rr => !(rr.status == "FAILED"))) = true := by
  decide

/-- C6 (corrected): neither the failure handler nor the exit handler ever
reverts a record to RUNNING — each either leaves the state untouched or
rewrites the record to its own terminal status (FAILED resp. KILLED); and
after a shutdown whose TENSORFLOW wait exited through the
zero-active-jobs branch the `running` flag is cleared, so both handlers
are no-ops on the resulting state and no further audit writes occur.  (A
shutdown that completes through any other branch leaves `running` set, so
later handler invocations can still write; see the counterexample.) -/
theorem c6_terminal_audit_amended (g g2 : GlobalState) (info : List NodeRecord)
    (s0 : PollSample) (rest : List PollSample) (fp : List Nat)
    (tr : List EngineAction) (r : ExperimentRecord) (hz : s0.activeJobs = 0)
    (hsd : shutdown g ⟨info, InputMode.TENSORFLOW, false, [], false, s0 :: rest, fp⟩ =
      some (g2, tr)) :
    ((exception_handler g).experiment_json = g.experiment_json.map failRec
      ∨ exception_handler g = g)
    ∧ ((exit_handler g).experiment_json = g.experiment_json.map killRec
      ∨ exit_handler g = g)
    ∧ (failRec r).status = "FAILED"
    ∧ (killRec r).status = "KILLED"
    ∧ g2.running = false
    ∧ exception_handler g2 = g2
    ∧ exit_handler g2 = g2 := by
  have hloop : tfWaitLoop ((info.filter (fun n => n.job_name == "ps")).length) 0 (s0 :: rest) =
      some (1, true) := by
    simp [tfWaitLoop, hz]
  have hg2run : g2.running = false := by
    rcases hfe : g.tf_error with _ | e <;>
      rcases hfw : finalWaitLoop fp with _ | _ <;>
        simp [shutdown, hloop, hfe, hfw, exception_handler, put_elastic] at hsd <;>
          (obtain ⟨hg2, _⟩ := hsd
           rw [← hg2])
  refine ⟨?_, ?_, rfl, rfl, hg2run, ?_, ?_⟩
  · rcases hgr : g.running with _ | _
    · right
      simp [exception_handler, hgr]
    · rcases hgj : g.experiment_json with _ | r2
      · right
        simp [exception_handler, hgr, hgj]
      · left
        simp [exception_handler, hgr, hgj, put_elastic]
  · rcases hgr : g.running with _ | _
    · right
      simp [exit_handler, hgr]
    · rcases hgj : g.experiment_json with _ | r2
      · right
        simp [exit_handler, hgr, hgj]
      · left
        simp [exit_handler, hgr, hgj, put_elastic]
  · simp [exception_handler, hg2run]
  · simp [exit_handler, hg2run]

/-- A running state with a live RUNNING experiment record and no error,
about to be shut down. -/
def cexG6 : GlobalState :=
  { tf_error := none, elastic_id := 1, experiment_json := some ⟨"RUNNING", false⟩,
    running := true, run_id := 1, auditLog := [] }

/-- Witness for C6: with a zero-active-jobs TENSORFLOW shutdown on a
one-ps/one-worker registry, the handlers never produce a RUNNING record,
the resulting state has `running` cleared, and both handlers leave it
untouched. -/
theorem c6_terminal_audit_amended_witness :
    ((exception_handler cexG6).experiment_json = cexG6.experiment_json.map failRec
      ∨ exception_handler cexG6 = cexG6)
    ∧ ((exit_handler cexG6).experiment_json = cexG6.experiment_json.map killRec
      ∨ exit_handler cexG6 = cexG6)
    ∧ (failRec ⟨"RUNNING", false⟩).status = "FAILED"
    ∧ (killRec ⟨"RUNNING", false⟩).status = "KILLED"
    ∧ ({ cexG6 with running := false, experiment_json := some ⟨"FINISHED", true⟩, auditLog := [some ⟨"FINISHED", true⟩] } : GlobalState).running = false
    ∧ exception_handler { cexG6 with running := false, experiment_json := some ⟨"FINISHED", true⟩, auditLog := [some ⟨"FINISHED", true⟩] } =
        { cexG6 with running := false, experiment_json := some ⟨"FINISHED", true⟩, auditLog := [some ⟨"FINISHED", true⟩] }
    ∧ exit_handler { cexG6 with running := false, experiment_json := some ⟨"FINISHED", true⟩, auditLog := [some ⟨"FINISHED", true⟩] } =
        { cexG6 with running := false, experiment_json := some ⟨"FINISHED", true⟩, auditLog := [some ⟨"FINISHED", true⟩] } :=
  c6_terminal_audit_amended cexG6
    { cexG6 with running := false, experiment_json := some ⟨"FINISHED", true⟩, auditLog := [some ⟨"FINISHED", true⟩] }
    [okN1, okN2] ⟨0, []⟩ [] [0]
    [EngineAction.workerShutdownJob 1, EngineAction.connectPS 40,
     EngineAction.putControlNone 40, EngineAction.joinControl 40]
    ⟨"RUNNING", false⟩ rfl (by decide)

/-- C6 counterexample: the claim that once the run is TERMINATED no
further audit writes occur is false.  A SPARK-mode shutdown completes —
writing the FINISHED record — without clearing the `running` flag, so a
subsequent exit-handler invocation performs another audit write (KILLED)
after shutdown has returned. -/
theorem c6_counterexample :
    shutdown cexG6 ⟨[okN1, okN2], InputMode.SPARK, false, [], false, [], [0]⟩ =
      some ({ cexG6 with experiment_json := some ⟨"FINISHED", true⟩, auditLog := [some ⟨"FINISHED", true⟩] },
            [EngineAction.workerShutdownJob 1, EngineAction.connectPS 40,
             EngineAction.putControlNone 40, EngineAction.joinControl 40])
    ∧ ({ cexG6 with experiment_json := some ⟨"FINISHED", true⟩, auditLog := [some ⟨"FINISHED", true⟩] } : GlobalState).running = true
    ∧ (exit_handler { cexG6 with experiment_json := some ⟨"FINISHED", true⟩, auditLog := [some ⟨"FINISHED", true⟩] }).auditLog =
        [some ⟨"FINISHED", true⟩, some ⟨"KILLED", true⟩] := by
  decide
